import Mathlib

/-
Shallow embedding of the FlashOps ABI shim generator (src/src/lib.rs).

The crate is a macro library: `flash_algorithm!` expands, for a concrete
type implementing the `FlashOps` trait and a static device-geometry
configuration, into a global `INIT_FLAG : bool`, a global
`ALGO_INSTANCE : MaybeUninit<T>`, the C entry points `initialize`,
`deinitialize`, `erase_sector`, `program_page` (and, feature-gated,
`erase_chip` and `verify`), and a static `FlashDeviceInfo` descriptor.

Embedding choices:
  - u32 values are `Nat` (no argument is ever subjected to wrapping
    arithmetic in the source, so no modular reduction is needed);
  - `core::num::NonZeroU32` (the crate's `Error`) is the subtype of
    nonzero naturals;
  - the two globals become an explicit `ShimState` record threaded
    through the entry points; the `MaybeUninit<T>` slot is `Option T`
    (`some` exactly when the slot holds a validly written, not yet
    dropped instance);
  - the trait is a structure of functions over an instance type `T`;
    a `&mut self` method returning `Result<(), Error>` becomes
    `T -> args -> Except Error Unit × T` (result plus updated instance);
  - entry points return `Option (Nat × ShimState T)`: `some (code, s)`
    is a normal return, `none` is the non-returning paths: the
    `panic!` on an invalid operation code, and undefined behaviour
    (reading or dropping the `MaybeUninit` slot while unwritten,
    `slice::from_raw_parts` from a null pointer or an invalid length);
  - a raw `*const u8` argument is `Option (List Nat)`: `none` is the
    null pointer, `some mem` a pointer at whose address the bytes `mem`
    lie; `slice::from_raw_parts(data, size)` is `readSlice`, defined
    only when the pointer is non-null and `size` bytes are available.
-/

/-- The crate's `Error` type, `core::num::NonZeroU32`: a nonzero code. -/
def Error : Type := {n : Nat // n ≠ 0}

/-- `e.get()` on a `NonZeroU32`: the underlying numeric value. -/
def Error.get (e : Error) : Nat := e.val

instance : DecidableEq Error := by
  unfold Error
  infer_instance

/-- The `Operation` enum (discriminants 1, 2, 3). -/
inductive Operation where
  | Erase
  | Program
  | Verify
deriving DecidableEq, Repr

/-- The operation codes `ERASE = 1`, `PROGRAM = 2`, `VERIFY = 3`. -/
def ERASE : Nat := 1

/-- Operation code for program. -/
def PROGRAM : Nat := 2

/-- Operation code for verify. -/
def VERIFY : Nat := 3

/-- The `match op` in `initialize` (lib.rs lines 55-60): `1 => Erase`,
`2 => Program`, `3 => Verify`, anything else panics (`none` here). -/
def decodeOp (op : Nat) : Option Operation :=
  match op with
  | 1 => some Operation.Erase
  | 2 => some Operation.Program
  | 3 => some Operation.Verify
  | _ => none

/-- The `FlashOps` trait: a structure of operations over an instance
type `T`. Methods taking `&mut self` return the `Result` together with
the updated instance. `erase_chip` and `verify` are the feature-gated
optional capabilities, modelled with both features enabled. -/
structure FlashOps (T : Type) where
  create : Nat → Nat → Operation → Except Error T
  erase_sector : T → Nat → Except Error Unit × T
  program_page : T → Nat → List Nat → Except Error Unit × T
  erase_chip : T → Except Error Unit × T
  verify : T → Nat → Nat → Option (List Nat) → Except Error Unit × T

/-- The two generated globals: `INIT_FLAG : bool` and
`ALGO_INSTANCE : MaybeUninit<T>` (`some` iff validly written). -/
structure ShimState (T : Type) where
  INIT_FLAG : Bool
  ALGO_INSTANCE : Option T
deriving DecidableEq, Repr

/-- Collapse a typed result into the raw numeric code:
`Ok(()) => 0, Err(e) => e.get()` (the match arms of every entry point). -/
def resultCode (r : Except Error Unit) : Nat :=
  match r with
  | Except.ok _ => 0
  | Except.error e => e.get

/-- `core::slice::from_raw_parts(data, size)`: defined (a view of exactly
`size` bytes) only for a non-null pointer with `size` bytes available. -/
def readSlice (data : Option (List Nat)) (size : Nat) : Option (List Nat) :=
  match data with
  | none => none
  | some mem => if size ≤ mem.length then some (mem.take size) else none

/-- Entry point `deinitialize` (lib.rs lines 73-80): return 1 when the
flag is false; otherwise `drop_in_place` the instance (undefined
behaviour when the slot is unwritten), then clear the flag, return 0. -/
def deinit_entry {T : Type} (s : ShimState T) : Option (Nat × ShimState T) :=
  if s.INIT_FLAG then
    match s.ALGO_INSTANCE with
    | some _ => some (0, ⟨false, none⟩)
    | none => none
  else
    some (1, s)

/-- Entry point `initialize` (lib.rs lines 50-69): when the flag is set,
first call `deinitialize` (its code discarded); then set
`INIT_FLAG = true` (line 54, before anything is constructed); decode
`op`, panicking on an unknown code; call `T::create`; on `Ok` write the
instance into the slot and set the flag (again), returning 0; on `Err(e)`
return `e.get()` with the state as line 54 left it. -/
def init_entry {T : Type} (F : FlashOps T) (s : ShimState T)
    (addr clock op : Nat) : Option (Nat × ShimState T) :=
  (if s.INIT_FLAG then (deinit_entry s).map (fun p => p.2) else some s).bind
    (fun s1 =>
      let s2 : ShimState T := ⟨true, s1.ALGO_INSTANCE⟩
      match decodeOp op with
      | none => none
      | some o =>
        match F.create addr clock o with
        | Except.ok inst => some (0, ⟨true, some inst⟩)
        | Except.error e => some (e.get, s2))

/-- Entry point `erase_sector` (lib.rs lines 84-93). -/
def erase_sector_entry {T : Type} (F : FlashOps T) (s : ShimState T)
    (addr : Nat) : Option (Nat × ShimState T) :=
  if s.INIT_FLAG then
    match s.ALGO_INSTANCE with
    | none => none
    | some inst =>
      let r := F.erase_sector inst addr
      some (resultCode r.1, ⟨true, some r.2⟩)
  else
    some (1, s)

/-- Entry point `program_page` (lib.rs lines 97-107): guard, then build
the borrowed view of exactly `size` bytes, then dispatch. -/
def program_page_entry {T : Type} (F : FlashOps T) (s : ShimState T)
    (addr size : Nat) (data : Option (List Nat)) : Option (Nat × ShimState T) :=
  if s.INIT_FLAG then
    match s.ALGO_INSTANCE with
    | none => none
    | some inst =>
      (readSlice data size).bind (fun bytes =>
        let r := F.program_page inst addr bytes
        some (resultCode r.1, ⟨true, some r.2⟩))
  else
    some (1, s)

/-- Entry point `erase_chip` (lib.rs lines 176-185, `erase-chip` feature). -/
def erase_chip_entry {T : Type} (F : FlashOps T) (s : ShimState T) :
    Option (Nat × ShimState T) :=
  if s.INIT_FLAG then
    match s.ALGO_INSTANCE with
    | none => none
    | some inst =>
      let r := F.erase_chip inst
      some (resultCode r.1, ⟨true, some r.2⟩)
  else
    some (1, s)

/-- Entry point `verify` (lib.rs lines 203-217, `verify` feature): guard,
then `None` for a null pointer and `Some` of a `size`-byte view
otherwise, then dispatch. -/
def verify_entry {T : Type} (F : FlashOps T) (s : ShimState T)
    (addr size : Nat) (data : Option (List Nat)) : Option (Nat × ShimState T) :=
  if s.INIT_FLAG then
    match s.ALGO_INSTANCE with
    | none => none
    | some inst =>
      (match data with
       | none => some none
       | some mem => (readSlice (some mem) size).map some).bind (fun ds =>
        let r := F.verify inst addr size ds
        some (resultCode r.1, ⟨true, some r.2⟩))
  else
    some (1, s)

/-- A guarded entry-point call, with its raw arguments: `deinitialize`,
`erase_sector`, `program_page`, `erase_chip` or `verify` (every entry
point except `initialize`). -/
inductive GCall where
  | deinit
  | eraseSector (addr : Nat)
  | programPage (addr size : Nat) (data : Option (List Nat))
  | eraseChip
  | verifyCall (addr size : Nat) (data : Option (List Nat))
deriving DecidableEq, Repr

/-- Dispatch one guarded call to its entry point. -/
def runGuarded {T : Type} (F : FlashOps T) (s : ShimState T) :
    GCall → Option (Nat × ShimState T)
  | GCall.deinit => deinit_entry s
  | GCall.eraseSector a => erase_sector_entry F s a
  | GCall.programPage a n d => program_page_entry F s a n d
  | GCall.eraseChip => erase_chip_entry F s
  | GCall.verifyCall a n d => verify_entry F s a n d

/-- Run a sequence of guarded calls, collecting the returned codes and
the final state (`none` as soon as one call aborts). -/
def runSeq {T : Type} (F : FlashOps T) (s : ShimState T) :
    List GCall → Option (List Nat × ShimState T)
  | [] => some ([], s)
  | c :: cs =>
    (runGuarded F s c).bind (fun p =>
      (runSeq F p.2 cs).map (fun q => (p.1 :: q.1, q.2)))

/-- The spec's invariant on the two globals: the flag is true exactly
when the instance slot holds a validly constructed instance. -/
def flagInstInvariant {T : Type} (s : ShimState T) : Prop :=
  s.INIT_FLAG = s.ALGO_INSTANCE.isSome

instance {T : Type} (s : ShimState T) : Decidable (flagInstInvariant s) := by
  unfold flagInstInvariant
  infer_instance

/-- A sector descriptor entry: `(size, address)`. -/
structure Sector where
  size : Nat
  address : Nat
deriving DecidableEq, Repr

/-- The `FlashDevice` record emitted by the macro (lib.rs lines 139-151).
The sector array, `[Sector; count + 1]` in the source, is the list
`flash_sectors`; its generated length is the subject of the theorems. -/
structure FlashDevice where
  vers : Nat
  dev_name : List Nat
  dev_type : Nat
  dev_addr : Nat
  device_size : Nat
  page_size : Nat
  _reserved : Nat
  empty : Nat
  program_time_out : Nat
  erase_time_out : Nat
  flash_sectors : List Sector
deriving DecidableEq, Repr

/-- The macro's configuration arguments: `flash_address`, `flash_size`,
`page_size`, `empty_value` and the declared `sectors` list (the macro
grammar requires at least one sector). -/
structure FlashConfig where
  flash_address : Nat
  flash_size : Nat
  page_size : Nat
  empty_value : Nat
  sectors : List Sector
deriving DecidableEq, Repr

/-- The terminator entry appended after the declared sectors
(lib.rs lines 131-134). -/
def sentinelSector : Sector := ⟨0xffffffff, 0xffffffff⟩

/-- The `count!` helper macro (lib.rs lines 223-226): `0` for no tokens,
`1 + count!(rest)` otherwise; applied to the declared sector sizes it
counts the declared sectors. -/
def count {α : Type} : List α → Nat
  | [] => 0
  | _ :: xs => 1 + count xs

/-- The `FlashDeviceInfo` static generated from a configuration
(lib.rs lines 116-136): fixed fields are literal constants, the
configurable fields are copied, and `flash_sectors` is the declared
sectors in declaration order followed by the sentinel. -/
def flashDeviceInfo (cfg : FlashConfig) : FlashDevice :=
  { vers := 0
    dev_name := List.replicate 128 0
    dev_type := 5
    dev_addr := cfg.flash_address
    device_size := cfg.flash_size
    page_size := cfg.page_size
    _reserved := 0
    empty := cfg.empty_value
    program_time_out := 1000
    erase_time_out := 2000
    flash_sectors := cfg.sectors ++ [sentinelSector] }

/-- A concrete implementation whose every operation succeeds and whose
instance type is `Unit`; used to evaluate the theorems at concrete
inputs. -/
def okOps : FlashOps Unit :=
  { create := fun _ _ _ => Except.ok ()
    erase_sector := fun u _ => (Except.ok (), u)
    program_page := fun u _ _ => (Except.ok (), u)
    erase_chip := fun u => (Except.ok (), u)
    verify := fun u _ _ _ => (Except.ok (), u) }

/-- The error code 7, a concrete nonzero `Error`. -/
def err7 : Error := ⟨7, by decide⟩

/-- A concrete implementation whose `create` fails with code 7. -/
def failOps : FlashOps Unit :=
  { create := fun _ _ _ => Except.error err7
    erase_sector := fun u _ => (Except.ok (), u)
    program_page := fun u _ _ => (Except.ok (), u)
    erase_chip := fun u => (Except.ok (), u)
    verify := fun u _ _ _ => (Except.ok (), u) }

/-- Helper: any guarded entry point called with the flag false returns
code 1 and the unchanged state, whatever the implementation. -/
theorem runGuarded_flag_false {T : Type} (F : FlashOps T) (s : ShimState T)
    (h : s.INIT_FLAG = false) (c : GCall) : runGuarded F s c = some (1, s) := by
  cases c <;>
    simp [runGuarded, deinit_entry, erase_sector_entry, program_page_entry,
      erase_chip_entry, verify_entry, h]

/-- Helper: a whole sequence of guarded calls from a flag-false state
returns 1 every time and ends in the same state. -/
theorem runSeq_flag_false {T : Type} (F : FlashOps T) (s : ShimState T)
    (h : s.INIT_FLAG = false) (cs : List GCall) :
    runSeq F s cs = some (List.replicate cs.length 1, s) := by
  induction cs with
  | nil => simp [runSeq]
  | cons c cs ih => simp [runSeq, runGuarded_flag_false F s h c, ih, List.replicate_succ]

/-- Helper: `count` agrees with the list length. -/
theorem count_eq_length {α : Type} (l : List α) : count l = l.length := by
  induction l with
  | nil => rfl
  | cons x xs ih => simp [count, ih]; omega

/-- Helper: when `initialize` returns 0 it took the `Ok` branch, so the
resulting state has the flag set and a written instance slot. -/
theorem init_entry_eq_zero {T : Type} (F : FlashOps T) (s s1 : ShimState T)
    (addr clock op : Nat) (h : init_entry F s addr clock op = some (0, s1)) :
    ∃ inst : T, s1 = ⟨true, some inst⟩ := by
  unfold init_entry at h
  rcases Option.bind_eq_some.mp h with ⟨s0, hpre, hf⟩
  rcases hdec : decodeOp op with _ | o
  · simp [hdec] at hf
  · rcases hc : F.create addr clock o with e | inst
    · simp [hdec, hc, Error.get] at hf
      exact absurd hf.1 e.property
    · simp [hdec, hc] at hf
      exact ⟨inst, hf.symm⟩

/-- C1: the claim says a failed `T::create` during `initialize` from the
uninitialized state leaves the flag false, so a later guarded entry point
returns 1. The code sets `INIT_FLAG = true` before calling `create`
(lib.rs line 54) and the `Err` branch never clears it: with `create`
failing with code 7, `initialize` returns 7 but leaves the flag true and
the slot unwritten, and a subsequent `erase_sector` dispatches into the
unwritten slot (undefined behaviour, `none` here) instead of returning 1. -/
theorem c1_failed_create_leaves_flag_set :
    init_entry failOps ⟨false, none⟩ 0 0 1 = some (7, ⟨true, none⟩) ∧
    erase_sector_entry failOps (⟨true, none⟩ : ShimState Unit) 0 = none := by
  constructor <;> rfl

/-- C2: the claim says every entry point preserves the invariant "flag
true iff the slot holds a valid instance" by strict ordering. The code
violates it: from the uninitialized state (where the invariant holds), an
`initialize` whose `create` fails with code 7 ends with the flag true and
the slot unwritten, a state where the invariant is false. -/
theorem c2_invariant_not_preserved :
    flagInstInvariant (⟨false, none⟩ : ShimState Unit) ∧
    init_entry failOps ⟨false, none⟩ 0 0 1 = some (7, ⟨true, none⟩) ∧
    ¬ flagInstInvariant (⟨true, none⟩ : ShimState Unit) := by
  refine ⟨rfl, rfl, ?_⟩
  simp [flagInstInvariant]

/-- C3: any guarded entry point invoked while the initialization flag is
false returns exactly 1 and leaves the state (flag and instance slot)
unchanged, for every implementation and every raw argument; in
particular it never dispatches to the concrete implementation. -/
theorem c3_guarded_uninit_returns_one {T : Type} (F : FlashOps T)
    (s : ShimState T) (h : s.INIT_FLAG = false) (c : GCall) :
    runGuarded F s c = some (1, s) :=
  runGuarded_flag_false F s h c

/-- C3 witness: `erase_sector(5)` on the freshly loaded state returns 1
and changes nothing. -/
theorem c3_guarded_uninit_returns_one_witness :
    runGuarded okOps (⟨false, none⟩ : ShimState Unit) (GCall.eraseSector 5) =
      some (1, ⟨false, none⟩) :=
  c3_guarded_uninit_returns_one okOps ⟨false, none⟩ rfl (GCall.eraseSector 5)

/-- C4: for every configuration the generated descriptor's sector array
has exactly `count sectors + 1` entries, begins with the declared pairs
in declaration order, and ends with the sentinel
`{size: 0xFFFFFFFF, address: 0xFFFFFFFF}`. -/
theorem c4_sector_array_layout (cfg : FlashConfig) :
    (flashDeviceInfo cfg).flash_sectors.length = count cfg.sectors + 1 ∧
    (flashDeviceInfo cfg).flash_sectors.take cfg.sectors.length = cfg.sectors ∧
    (flashDeviceInfo cfg).flash_sectors.getLast? = some sentinelSector ∧
    sentinelSector.size = 0xffffffff ∧ sentinelSector.address = 0xffffffff := by
  refine ⟨?_, ?_, ?_, rfl, rfl⟩
  · simp [flashDeviceInfo, count_eq_length]
  · simp [flashDeviceInfo, List.take_left]
  · simp [flashDeviceInfo, List.getLast?_concat]

/-- C5: from any state with the flag set, `initialize` is observably
equal to `deinitialize` followed by `initialize` with the same
arguments: same returned code, same resulting state (and the same
non-returning path when one aborts). -/
theorem c5_reinit_is_deinit_then_init {T : Type} (F : FlashOps T)
    (s : ShimState T) (h : s.INIT_FLAG = true) (addr clock op : Nat) :
    init_entry F s addr clock op =
      (deinit_entry s).bind (fun p => init_entry F p.2 addr clock op) := by
  obtain ⟨flag, slot⟩ := s
  cases flag
  · cases h
  · cases slot <;> rfl

/-- C5 witness: re-initializing the initialized state with
`(addr, clock, op) = (1, 2, 3)` equals deinitialize-then-initialize. -/
theorem c5_reinit_is_deinit_then_init_witness :
    init_entry okOps (⟨true, some ()⟩ : ShimState Unit) 1 2 3 =
      (deinit_entry (⟨true, some ()⟩ : ShimState Unit)).bind
        (fun p => init_entry okOps p.2 1 2 3) :=
  c5_reinit_is_deinit_then_init okOps ⟨true, some ()⟩ rfl 1 2 3

/-- C6: `initialize` decodes its third argument as 1 = Erase,
2 = Program, 3 = Verify, and for any other value it takes the
non-returning `panic!` path (`none`) whatever the implementation and
state: no error code is ever produced and `T::create` is never reached. -/
theorem c6_invalid_op_aborts {T : Type} (F : FlashOps T) (s : ShimState T)
    (addr clock op : Nat) (h1 : op ≠ 1) (h2 : op ≠ 2) (h3 : op ≠ 3) :
    init_entry F s addr clock op = none ∧
    decodeOp ERASE = some Operation.Erase ∧
    decodeOp PROGRAM = some Operation.Program ∧
    decodeOp VERIFY = some Operation.Verify := by
  have hdec : decodeOp op = none := by
    unfold decodeOp
    split <;> simp_all
  refine ⟨?_, rfl, rfl, rfl⟩
  unfold init_entry
  rcases hpre : (if s.INIT_FLAG then (deinit_entry s).map (fun p => p.2)
      else some s) with _ | s1
  · rw [hpre]
    rfl
  · rw [hpre]
    simp [hdec]

/-- C6 witness: `initialize(addr, clock, op = 9)` never returns. -/
theorem c6_invalid_op_aborts_witness :
    init_entry okOps (⟨false, none⟩ : ShimState Unit) 0 0 9 = none ∧
    decodeOp ERASE = some Operation.Erase ∧
    decodeOp PROGRAM = some Operation.Program ∧
    decodeOp VERIFY = some Operation.Verify :=
  c6_invalid_op_aborts okOps ⟨false, none⟩ 0 0 9
    (by decide) (by decide) (by decide)

/-- C7: after an `initialize` that returned 0, `deinitialize` returns 0
and reaches the uninitialized state, and from there every sequence of
guarded calls (before another `initialize`) returns 1 at each step and
leaves the state unchanged. -/
theorem c7_deinit_after_init_ok {T : Type} (F : FlashOps T)
    (s s1 : ShimState T) (addr clock op : Nat)
    (h : init_entry F s addr clock op = some (0, s1)) :
    deinit_entry s1 = some (0, ⟨false, none⟩) ∧
    ∀ cs : List GCall, runSeq F (⟨false, none⟩ : ShimState T) cs =
      some (List.replicate cs.length 1, ⟨false, none⟩) := by
  obtain ⟨inst, rfl⟩ := init_entry_eq_zero F s s1 addr clock op h
  exact ⟨rfl, fun cs => runSeq_flag_false F ⟨false, none⟩ rfl cs⟩

/-- C7 witness: after a successful `initialize`, `deinitialize` returns
0 and a two-call guarded sequence returns 1 twice without state change. -/
theorem c7_deinit_after_init_ok_witness :
    deinit_entry (⟨true, some ()⟩ : ShimState Unit) = some (0, ⟨false, none⟩) ∧
    runSeq okOps (⟨false, none⟩ : ShimState Unit)
        [GCall.deinit, GCall.eraseChip] = some ([1, 1], ⟨false, none⟩) := by
  have h := c7_deinit_after_init_ok okOps ⟨false, none⟩ ⟨true, some ()⟩ 0 0 2 rfl
  exact ⟨h.1, h.2 [GCall.deinit, GCall.eraseChip]⟩

/-- C8: in the initialized state, `verify` with a null data pointer
passes `none` to `T::verify` — its returned code and instance effect are
exactly those of the explicit compare-against-empty (`None`) request —
and with a non-null pointer at `size` available bytes it passes `some`
of a view of exactly `size` bytes. -/
theorem c8_verify_null_is_none_case {T : Type} (F : FlashOps T) (inst : T)
    (addr size : Nat) :
    verify_entry F ⟨true, some inst⟩ addr size none =
      some (resultCode (F.verify inst addr size none).1,
        ⟨true, some (F.verify inst addr size none).2⟩) ∧
    ∀ mem : List Nat, size ≤ mem.length →
      verify_entry F ⟨true, some inst⟩ addr size (some mem) =
        some (resultCode (F.verify inst addr size (some (mem.take size))).1,
          ⟨true, some (F.verify inst addr size (some (mem.take size))).2⟩) ∧
      (mem.take size).length = size := by
  refine ⟨rfl, fun mem hm => ⟨?_, ?_⟩⟩
  · simp [verify_entry, readSlice, hm]
  · simp [List.length_take]
    omega

/-- C8 witness: verifying 2 bytes with a null pointer on the
initialized state equals the explicit `None` request, and a non-null
pointer at 3 bytes passes a view of exactly 2 bytes. -/
theorem c8_verify_null_is_none_case_witness :
    (verify_entry okOps (⟨true, some ()⟩ : ShimState Unit) 4 2 none =
      some (resultCode (okOps.verify () 4 2 none).1,
        ⟨true, some (okOps.verify () 4 2 none).2⟩)) ∧
    (verify_entry okOps (⟨true, some ()⟩ : ShimState Unit) 4 2 (some [9, 9, 9]) =
      some (resultCode (okOps.verify () 4 2 (some ([9, 9, 9].take 2))).1,
        ⟨true, some (okOps.verify () 4 2 (some ([9, 9, 9].take 2))).2⟩)) ∧
    ([9, 9, 9].take 2).length = 2 := by
  have h := c8_verify_null_is_none_case okOps () 4 2
  have h2 := h.2 [9, 9, 9] (by decide)
  exact ⟨h.1, h2.1, h2.2⟩

/-- C9: in the initialized state every guarded entry point maps the
implementation's result verbatim — `Ok(())` to 0 and `Err(e)` to the
numeric value of `e`, uninspected — and each entry point returns exactly
that collapsed code together with the updated instance. -/
theorem c9_codes_propagate_verbatim {T : Type} (F : FlashOps T) (inst : T)
    (addr size : Nat) (mem : List Nat) (h : size ≤ mem.length) :
    resultCode (Except.ok ()) = 0 ∧
    (∀ n : Nat, ∀ hn : n ≠ 0, resultCode (Except.error ⟨n, hn⟩) = n) ∧
    erase_sector_entry F ⟨true, some inst⟩ addr =
      some (resultCode (F.erase_sector inst addr).1,
        ⟨true, some (F.erase_sector inst addr).2⟩) ∧
    program_page_entry F ⟨true, some inst⟩ addr size (some mem) =
      some (resultCode (F.program_page inst addr (mem.take size)).1,
        ⟨true, some (F.program_page inst addr (mem.take size)).2⟩) ∧
    erase_chip_entry F ⟨true, some inst⟩ =
      some (resultCode (F.erase_chip inst).1,
        ⟨true, some (F.erase_chip inst).2⟩) ∧
    verify_entry F ⟨true, some inst⟩ addr size none =
      some (resultCode (F.verify inst addr size none).1,
        ⟨true, some (F.verify inst addr size none).2⟩) := by
  refine ⟨rfl, fun n hn => rfl, rfl, ?_, rfl, rfl⟩
  simp [program_page_entry, readSlice, h]

/-- C9 witness: concrete evaluation on the initialized state with a
3-byte buffer and `size = 2`. -/
theorem c9_codes_propagate_verbatim_witness :
    resultCode (Except.ok ()) = 0 ∧
    (∀ n : Nat, ∀ hn : n ≠ 0, resultCode (Except.error ⟨n, hn⟩) = n) ∧
    erase_sector_entry okOps (⟨true, some ()⟩ : ShimState Unit) 0 =
      some (resultCode (okOps.erase_sector () 0).1,
        ⟨true, some (okOps.erase_sector () 0).2⟩) ∧
    program_page_entry okOps (⟨true, some ()⟩ : ShimState Unit) 0 2 (some [9, 9, 9]) =
      some (resultCode (okOps.program_page () 0 ([9, 9, 9].take 2)).1,
        ⟨true, some (okOps.program_page () 0 ([9, 9, 9].take 2)).2⟩) ∧
    erase_chip_entry okOps (⟨true, some ()⟩ : ShimState Unit) =
      some (resultCode (okOps.erase_chip ()).1,
        ⟨true, some (okOps.erase_chip ()).2⟩) ∧
    verify_entry okOps (⟨true, some ()⟩ : ShimState Unit) 0 2 none =
      some (resultCode (okOps.verify () 0 2 none).1,
        ⟨true, some (okOps.verify () 0 2 none).2⟩) :=
  c9_codes_propagate_verbatim okOps () 0 2 [9, 9, 9] (by decide)

/-- C10: for every configuration the generated descriptor's
non-configurable fields are the fixed constants (version 0, all-zero
128-byte name, device-type tag 5, reserved 0, program timeout 1000,
erase timeout 2000), and only address, total size, page size, empty
value and the sector list come from the configuration. -/
theorem c10_descriptor_fixed_fields (cfg : FlashConfig) :
    (flashDeviceInfo cfg).vers = 0 ∧
    (flashDeviceInfo cfg).dev_name = List.replicate 128 0 ∧
    (flashDeviceInfo cfg).dev_type = 5 ∧
    (flashDeviceInfo cfg)._reserved = 0 ∧
    (flashDeviceInfo cfg).program_time_out = 1000 ∧
    (flashDeviceInfo cfg).erase_time_out = 2000 ∧
    (flashDeviceInfo cfg).dev_addr = cfg.flash_address ∧
    (flashDeviceInfo cfg).device_size = cfg.flash_size ∧
    (flashDeviceInfo cfg).page_size = cfg.page_size ∧
    (flashDeviceInfo cfg).empty = cfg.empty_value ∧
    (flashDeviceInfo cfg).flash_sectors = cfg.sectors ++ [sentinelSector] :=
  ⟨rfl, rfl, rfl, rfl, rfl, rfl, rfl, rfl, rfl, rfl, rfl⟩
